import Mathlib

/-!
Verification of the intent-classification and execution-planning engine of
the Video_Chatllm repository (`src/core/decision_agent.py`), as a shallow
embedding: Python strings are `List Char`, Python dicts with fixed keys are
structures with `Option` fields, fallible code returns `Option`.
-/

set_option autoImplicit false

namespace DecisionAgent

/-! ### Python string primitives -/

/-- Python whitespace test (`str.split()` / `str.strip()` semantics),
restricted to the standard ASCII whitespace characters. -/
def isPySpace (c : Char) : Bool :=
  c = ' ' || c = '\t' || c = '\n' || c = '\r' || c = '\x0b' || c = '\x0c'

/-- Python substring containment `needle in hay`. -/
def pyIn (needle : List Char) : List Char → Bool
  | [] => needle.isEmpty
  | c :: t => needle.isPrefixOf (c :: t) || pyIn needle t

/-- Python `str.strip()`: drop whitespace from both ends. -/
def pyStrip (s : List Char) : List Char :=
  ((s.dropWhile isPySpace).reverse.dropWhile isPySpace).reverse

/-- Python `str.replace(old, '')`: left-to-right removal of non-overlapping
occurrences of `old`, scanning each position once.  Fuel is the length of
the string, which bounds the number of scan steps. -/
def pyReplaceAux (old : List Char) : Nat → List Char → List Char
  | _, [] => []
  | 0, s => s
  | fuel + 1, c :: t =>
    if old.isPrefixOf (c :: t) && !old.isEmpty then
      pyReplaceAux old fuel (List.drop old.length (c :: t))
    else
      c :: pyReplaceAux old fuel t

/-- Python `s.replace(old, '')` for a non-empty pattern `old`. -/
def pyReplace (old s : List Char) : List Char :=
  pyReplaceAux old s.length s

/-- Python `str.split('\n')`: split on each newline, keeping empty pieces. -/
def splitOnNl : List Char → List (List Char)
  | [] => [[]]
  | c :: t =>
    let r := splitOnNl t
    if c = '\n' then [] :: r
    else
      match r with
      | [] => [[c]]
      | w :: ws => (c :: w) :: ws

/-- Python `str.split()` with no argument: whitespace-delimited tokens, with
empty tokens discarded. -/
def pySplitWs (s : List Char) : List (List Char) :=
  (s.foldr
    (fun c acc =>
      if isPySpace c then [] :: acc
      else
        match acc with
        | [] => [[c]]
        | w :: ws => (c :: w) :: ws)
    []).filter (fun w => !w.isEmpty)

/-- Numeric value of the ASCII digit run captured by a `\d+` group. -/
def digitsToNat (ds : List Char) : Nat :=
  ds.foldl (fun n c => 10 * n + (c.toNat - '0'.toNat)) 0

/-! ### Keyword tables (`DecisionAgent.__init__` and method-local lists) -/

/-- Keyword set `self.keywords['image_gen']`. -/
def image_gen_keywords : List (List Char) :=
  ["生成圖片".data, "畫".data, "繪製".data, "創建圖像".data, "圖片".data,
   "插畫".data, "image".data, "picture".data, "photo".data]

/-- Keyword set `self.keywords['image_transform']`. -/
def image_transform_keywords : List (List Char) :=
  ["修改".data, "轉換".data, "改變".data, "調整".data, "編輯".data,
   "transform".data, "modify".data, "edit".data, "change".data]

/-- Keyword set `self.keywords['video_gen']`. -/
def video_gen_keywords : List (List Char) :=
  ["視頻".data, "影片".data, "動畫".data, "動態".data, "video".data,
   "animation".data, "motion".data]

/-- Keyword set `self.keywords['interpolation']`. -/
def interpolation_keywords : List (List Char) :=
  ["首尾".data, "插值".data, "過渡".data, "中間幀".data, "interpolate".data,
   "transition".data, "morph".data]

/-- Local list `batch_keywords` of `_determine_task_type`. -/
def batch_keywords : List (List Char) :=
  ["四張".data, "四個".data, "4張".data, "4個".data, "four".data, "4".data,
   "多張".data, "多個".data, "batch".data, "生成四".data, "create four".data]

/-- Local list `scene_keywords`, shared verbatim by `_determine_task_type`,
`_calculate_confidence` and `validate_input`. -/
def scene_keywords : List (List Char) :=
  ["場景一".data, "場景二".data, "場景三".data, "場景四".data,
   "第一張".data, "第二張".data, "第三張".data, "第四張".data]

/-- Local list `batch_keywords` of `_calculate_confidence`; shorter than the
one in `_determine_task_type` (no `生成四` / `create four`). -/
def confidence_batch_keywords : List (List Char) :=
  ["四張".data, "四個".data, "4張".data, "4個".data, "four".data, "4".data,
   "多張".data, "多個".data, "batch".data]

/-! ### Task classifier (`_determine_task_type`) -/

/-- Enum `TaskType` of `decision_agent.py`. -/
inductive TaskType where
  | text_to_image
  | image_to_image
  | image_to_video
  | text_to_video
  | first_to_last_frame
  | multimodal
  | batch_image_generation
deriving DecidableEq, Repr

/-- Translation of `DecisionAgent._determine_task_type(message, file_count)`.
The batch-keyword test lowercases the message again (`kw in message.lower()`),
the others test the message argument as given (`kw in message`). -/
def determine_task_type (message : List Char) (file_count : Nat) : TaskType :=
  let lower := message.map Char.toLower
  let has_batch_keyword := batch_keywords.any (fun kw => pyIn kw lower)
  let has_scene_keywords := scene_keywords.any (fun kw => pyIn kw message)
  let has_video_keyword := video_gen_keywords.any (fun kw => pyIn kw message)
  let has_interpolation_keyword :=
    interpolation_keywords.any (fun kw => pyIn kw message)
  let has_image_gen_keyword := image_gen_keywords.any (fun kw => pyIn kw message)
  let has_transform_keyword :=
    image_transform_keywords.any (fun kw => pyIn kw message)
  if file_count = 1 ∧ (has_batch_keyword || has_scene_keywords) = true then
    TaskType.batch_image_generation
  else if file_count = 0 then
    if has_video_keyword = true then TaskType.text_to_video
    else TaskType.text_to_image
  else if file_count = 1 then
    if has_video_keyword = true then TaskType.image_to_video
    else if (has_transform_keyword || has_image_gen_keyword) = true then
      TaskType.image_to_image
    else if has_video_keyword = true then TaskType.image_to_video
    else TaskType.image_to_image
  else if file_count = 2 then
    if (has_interpolation_keyword || pyIn "首".data message
        || pyIn "尾".data message) = true then
      TaskType.first_to_last_frame
    else TaskType.image_to_image
  else
    TaskType.image_to_image

/-! ### Prompt extractor (`_extract_prompt`) -/

/-- Local list `instruction_words` of `_extract_prompt`, in source order. -/
def instruction_words : List (List Char) :=
  ["幫我".data, "請".data, "生成".data, "創建".data, "製作".data, "畫".data,
   "繪製".data, "help".data, "create".data, "generate".data, "make".data,
   "draw".data]

/-- Translation of `DecisionAgent._extract_prompt(message)`: sequentially
replace each instruction word by the empty string in list order, collapse
whitespace (`' '.join(prompt.split())`), and strip. -/
def extract_prompt (message : List Char) : List Char :=
  let prompt := instruction_words.foldl (fun p w => pyReplace w p) message
  pyStrip (List.intercalate [' '] (pySplitWs prompt))

/-! ### Parameter extractor (`_extract_parameters`) -/

/-- Match of the duration alternation `(\d+)\s*秒|(\d+)\s*seconds?`
(IGNORECASE) anchored at the start of `s`: a non-empty maximal digit run,
optional whitespace, then either `秒` or the word `second` case-folded
(the optional trailing `s` does not affect acceptance). -/
def matchDurationAt (s : List Char) : Option Nat :=
  let ds := s.takeWhile Char.isDigit
  if ds.isEmpty then none
  else
    let rest := (s.dropWhile Char.isDigit).dropWhile isPySpace
    match rest with
    | '秒' :: _ => some (digitsToNat ds)
    | _ =>
      if "second".data.isPrefixOf (rest.map Char.toLower) then
        some (digitsToNat ds)
      else none

/-- Leftmost duration match (`re.search`): try each start position left to
right. -/
def searchDuration : List Char → Option Nat
  | [] => none
  | c :: t =>
    match matchDurationAt (c :: t) with
    | some n => some n
    | none => searchDuration t

/-- Match of `(\d+)\s*[x×]\s*(\d+)` anchored at the start of `s`. -/
def matchSizeXAt (s : List Char) : Option (Nat × Nat) :=
  let d1 := s.takeWhile Char.isDigit
  if d1.isEmpty then none
  else
    match (s.dropWhile Char.isDigit).dropWhile isPySpace with
    | c :: r =>
      if c = 'x' || c = '×' then
        let r2 := r.dropWhile isPySpace
        let d2 := r2.takeWhile Char.isDigit
        if d2.isEmpty then none else some (digitsToNat d1, digitsToNat d2)
      else none
    | [] => none

/-- Match of `(\d+)\s*:\s*(\d+)` anchored at the start of `s`. -/
def matchSizeColonAt (s : List Char) : Option (Nat × Nat) :=
  let d1 := s.takeWhile Char.isDigit
  if d1.isEmpty then none
  else
    match (s.dropWhile Char.isDigit).dropWhile isPySpace with
    | ':' :: r =>
      let r2 := r.dropWhile isPySpace
      let d2 := r2.takeWhile Char.isDigit
      if d2.isEmpty then none else some (digitsToNat d1, digitsToNat d2)
    | _ => none

/-- Match of `(\d+)\s*by\s*(\d+)` anchored at the start of `s`. -/
def matchSizeByAt (s : List Char) : Option (Nat × Nat) :=
  let d1 := s.takeWhile Char.isDigit
  if d1.isEmpty then none
  else
    match (s.dropWhile Char.isDigit).dropWhile isPySpace with
    | 'b' :: 'y' :: r =>
      let r2 := r.dropWhile isPySpace
      let d2 := r2.takeWhile Char.isDigit
      if d2.isEmpty then none else some (digitsToNat d1, digitsToNat d2)
    | _ => none

/-- Leftmost match of one size pattern (`re.search`): try each start
position left to right. -/
def searchSize (m : List Char → Option (Nat × Nat)) :
    List Char → Option (Nat × Nat)
  | [] => none
  | c :: t =>
    match m (c :: t) with
    | some r => some r
    | none => searchSize m t

/-- The list `size_patterns` of `_extract_parameters`, in source order. -/
def sizeMatchers : List (List Char → Option (Nat × Nat)) :=
  [matchSizeXAt, matchSizeColonAt, matchSizeByAt]

/-- The `for pattern in size_patterns: ... break` loop: first pattern whose
search over the whole message succeeds. -/
def firstSizeMatchIn (msg : List Char) :
    List (List Char → Option (Nat × Nat)) → Option (Nat × Nat)
  | [] => none
  | m :: ms =>
    match searchSize m msg with
    | some r => some r
    | none => firstSizeMatchIn msg ms

/-- Size detected by `_extract_parameters` for a message. -/
def findSize (msg : List Char) : Option (Nat × Nat) :=
  firstSizeMatchIn msg sizeMatchers

/-- Formatting `f"{width}x{height}"` of a size match. -/
def formatSize (w h : Nat) : List Char :=
  (Nat.repr w).data ++ ['x'] ++ (Nat.repr h).data

/-- The `style_keywords` table of `_extract_parameters`, in source
(insertion) order. -/
def style_keywords : List (List Char × List (List Char)) :=
  [("realistic".data,
    ["真實".data, "寫實".data, "realistic".data, "photorealistic".data]),
   ("anime".data, ["動漫".data, "卡通".data, "anime".data, "cartoon".data]),
   ("artistic".data,
    ["藝術".data, "繪畫".data, "artistic".data, "painting".data]),
   ("cinematic".data,
    ["電影".data, "影視".data, "cinematic".data, "film".data])]

/-- The style loop: first group with a keyword contained in the lowercased
message wins. -/
def findStyleIn (lower : List Char) :
    List (List Char × List (List Char)) → Option (List Char)
  | [] => none
  | (style, kws) :: rest =>
    if kws.any (fun kw => pyIn kw lower) then some style
    else findStyleIn lower rest

/-- Style detected by `_extract_parameters` for a message. -/
def findStyle (msg : List Char) : Option (List Char) :=
  findStyleIn (msg.map Char.toLower) style_keywords

/-- The dictionary returned by `_extract_parameters`: each field is `some`
exactly when the corresponding key is present in the Python dict. -/
structure Params where
  duration : Option Nat
  size : Option (List Char)
  style : Option (List Char)
deriving DecidableEq, Repr

/-- Translation of `DecisionAgent._extract_parameters(message)`: duration
clamped to [1,10] on a match and defaulted to 5 otherwise (the key is always
set), size and style set only on a match. -/
def extract_parameters (message : List Char) : Params :=
  { duration :=
      match searchDuration message with
      | some d => some (min (max d 1) 10)
      | none => some 5
    size := (findSize message).map (fun r => formatSize r.1 r.2)
    style := findStyle message }

/-! ### Scene splitter (`_parse_scenes`)

The four scene patterns all have the shape
`marker (.*?) (?= marker' | $)` with `re.DOTALL`, so `re.findall` scans for
a marker, lazily captures up to the next marker position or the end of the
string, and resumes at that (zero-width lookahead) position.  Patterns 1 and
3 have a single capturing group, so `re.findall` yields plain strings and
the loop body `match[1] if len(match) > 1 else match[0]` indexes characters
of the captured string; patterns 2 and 4 have two groups, so the loop body
selects the text group of a tuple. -/

/-- Marker `場景[一二三四]：` of patterns 1 and their lookahead: returns the
remainder after the marker. -/
def marker1 : List Char → Option (List Char)
  | '場' :: '景' :: d :: '：' :: rest =>
    if d = '一' || d = '二' || d = '三' || d = '四' then some rest else none
  | _ => none

/-- Marker `場景(\d+)：` of pattern 2 and its lookahead `場景\d+：`. -/
def marker2 : List Char → Option (List Char)
  | '場' :: '景' :: rest =>
    if (rest.takeWhile Char.isDigit).isEmpty then none
    else
      match rest.dropWhile Char.isDigit with
      | '：' :: r => some r
      | _ => none
  | _ => none

/-- Marker `第[一二三四]張：` of pattern 3 and its lookahead. -/
def marker3 : List Char → Option (List Char)
  | '第' :: d :: '張' :: '：' :: rest =>
    if d = '一' || d = '二' || d = '三' || d = '四' then some rest else none
  | _ => none

/-- Marker `第(\d+)張：` of pattern 4 and its lookahead `第\d+張：`. -/
def marker4 : List Char → Option (List Char)
  | '第' :: rest =>
    if (rest.takeWhile Char.isDigit).isEmpty then none
    else
      match rest.dropWhile Char.isDigit with
      | '張' :: '：' :: r => some r
      | _ => none
  | _ => none

/-- Lazy capture `(.*?)(?=marker|$)`: consume characters until the marker
matches at the current position or the string ends; return the capture and
the remainder (which starts at the marker if one was found). -/
def captureScan (marker : List Char → Option (List Char)) :
    List Char → List Char × List Char
  | [] => ([], [])
  | c :: t =>
    if (marker (c :: t)).isSome then ([], c :: t)
    else
      let p := captureScan marker t
      (c :: p.1, p.2)

/-- The `re.findall` loop for one scene pattern: scan for the marker, take
the lazy capture, resume at the lookahead position.  Each step consumes at
least one character, so string length is enough fuel. -/
def findallAux (marker : List Char → Option (List Char)) :
    Nat → List Char → List (List Char)
  | _, [] => []
  | 0, _ => []
  | fuel + 1, c :: t =>
    match marker (c :: t) with
    | some rest =>
      let p := captureScan marker rest
      p.1 :: findallAux marker fuel p.2
    | none => findallAux marker fuel t

/-- Captures of `re.findall(pattern, prompt, re.DOTALL)` for one marker. -/
def findall (marker : List Char → Option (List Char)) (s : List Char) :
    List (List Char) :=
  findallAux marker s.length s

/-- The loop body for a single-group pattern, where each `match` is the
captured string itself: `match[1] if len(match) > 1 else match[0]` picks the
character at index 1 (or 0), and raises `IndexError` (modelled as `none`)
on an empty capture. -/
def sceneTextFromStr (m : List Char) : Option (List Char) :=
  match m with
  | [] => none
  | [a] => some [a]
  | _ :: b :: _ => some [b]

/-- Processing of single-group matches: index into each captured string,
strip, and keep non-empty results; an empty capture aborts with
`IndexError`. -/
def processStrMatches : List (List Char) → Option (List (List Char))
  | [] => some []
  | m :: rest =>
    match sceneTextFromStr m with
    | none => none
    | some t =>
      match processStrMatches rest with
      | none => none
      | some acc =>
        let t2 := pyStrip t
        some (if t2.isEmpty then acc else t2 :: acc)

/-- Processing of two-group matches, where `match[1]` is the text group:
strip each capture and keep non-empty results. -/
def processTupleMatches (ms : List (List Char)) : List (List Char) :=
  ms.foldr
    (fun m acc =>
      let t := pyStrip m
      if t.isEmpty then acc else t :: acc)
    []

/-- Paragraph fallback of `_parse_scenes`: split the prompt on line breaks
into non-empty stripped paragraphs; with at least two, drop the first and
return the rest. -/
def paragraphScenes (prompt : List Char) : List (List Char) :=
  let paragraphs :=
    (splitOnNl prompt).filterMap
      (fun p => let q := pyStrip p; if q.isEmpty then none else some q)
  if 2 ≤ paragraphs.length then paragraphs.drop 1 else []

/-- Translation of `DecisionAgent._parse_scenes(prompt)`: try the four
patterns in order, taking the first with any `findall` matches; if the
scene list is still empty, fall back to paragraphs; truncate to 4 scenes.
`none` models an uncaught `IndexError` from an empty single-group capture. -/
def parse_scenes (prompt : List Char) : Option (List (List Char)) :=
  let step1 : Option (List (List Char)) :=
    let m1 := findall marker1 prompt
    if !m1.isEmpty then processStrMatches m1
    else
      let m2 := findall marker2 prompt
      if !m2.isEmpty then some (processTupleMatches m2)
      else
        let m3 := findall marker3 prompt
        if !m3.isEmpty then processStrMatches m3
        else
          let m4 := findall marker4 prompt
          if !m4.isEmpty then some (processTupleMatches m4)
          else some []
  match step1 with
  | none => none
  | some scenes =>
    let scenes2 := if scenes.isEmpty then paragraphScenes prompt else scenes
    some (scenes2.take 4)

/-! ### Execution planner for batch tasks (`_plan_batch_generation`) -/

/-- One step dictionary built by the loop body of `_plan_batch_generation`
for 1-based index `i` and scene text `scene`. -/
structure BatchStep where
  step : Nat
  action : List Char
  prompt : List Char
  filePaths : List (List Char)
  is_batch : Bool
  batch_index : Nat
  total_batches : Nat
  description : List Char
deriving DecidableEq, Repr

/-- Step built for index `i` (1-based) and scene `scene` with `total`
scenes overall. -/
def mkBatchStep (filePaths : List (List Char)) (total i : Nat)
    (scene : List Char) : BatchStep :=
  { step := i
    action := "image_to_image".data
    prompt := scene
    filePaths := filePaths
    is_batch := true
    batch_index := i
    total_batches := total
    description :=
      "生成第".data ++ (Nat.repr i).data ++ "張場景圖：".data
        ++ scene.take 50 ++ "...".data }

/-- The `for i, scene_desc in enumerate(scenes, 1)` loop. -/
def planSteps (filePaths : List (List Char)) (total : Nat) :
    Nat → List (List Char) → List BatchStep
  | _, [] => []
  | i, s :: rest => mkBatchStep filePaths total i s :: planSteps filePaths total (i + 1) rest

/-- Translation of `DecisionAgent._plan_batch_generation`: parse the scenes
of the prompt and emit one `image_to_image` step per scene; `none` models a
propagated exception from `_parse_scenes`. -/
def plan_batch_generation (prompt : List Char)
    (filePaths : List (List Char)) : Option (List BatchStep) :=
  match parse_scenes prompt with
  | none => none
  | some scenes => some (planSteps filePaths scenes.length 1 scenes)

/-! ### Confidence scorer (`_calculate_confidence`) -/

/-- Translation of `DecisionAgent._calculate_confidence`, with the decimal
float literals of the source read as rationals. -/
def calculate_confidence (message : List Char) (file_count : Nat)
    (task_type : TaskType) : ℚ :=
  let lower := message.map Char.toLower
  let c : ℚ :=
    if task_type = TaskType.batch_image_generation then
      1/2
        + (if confidence_batch_keywords.any (fun kw => pyIn kw lower) then
            (2/5 : ℚ) else 0)
        + (if scene_keywords.any (fun kw => pyIn kw message) then
            (3/10 : ℚ) else 0)
        + (if file_count = 1 then (1/5 : ℚ) else 0)
    else if task_type = TaskType.text_to_image then
      1/2
        + (if image_gen_keywords.any (fun kw => pyIn kw message) then
            (3/10 : ℚ) else 0)
    else if task_type = TaskType.image_to_video then
      1/2
        + (if video_gen_keywords.any (fun kw => pyIn kw message) then
            (3/10 : ℚ) else 0)
    else if task_type = TaskType.first_to_last_frame then
      1/2
        + (if interpolation_keywords.any (fun kw => pyIn kw message) then
            (2/5 : ℚ) else 0)
    else 1/2
  let c2 :=
    if task_type = TaskType.first_to_last_frame ∧ file_count = 2 then
      c + 1/5
    else c
  min c2 1

/-! ### Validator (`validate_input`) -/

/-- Result dictionary `{'valid': ..., 'errors': ...}` of `validate_input`. -/
structure ValidationResult where
  valid : Bool
  errors : List (List Char)
deriving DecidableEq, Repr

/-- Translation of `DecisionAgent.validate_input(task_type, message,
file_count)`: per-task rules appending one error string per failing rule,
`valid` iff no errors. -/
def validate_input (task_type message : List Char) (file_count : Nat) :
    ValidationResult :=
  let errors : List (List Char) :=
    if task_type = "batch_image_generation".data then
      (if file_count = 0 then ["批量圖生圖需要上傳1張參考圖片".data] else [])
        ++ (if message.isEmpty || (pyStrip message).length < 10 then
              ["請提供詳細的場景描述（至少10個字符）".data] else [])
        ++ (if !scene_keywords.any (fun kw => pyIn kw message) then
              ["請用\"場景一\"、\"場景二\"等格式描述各個場景".data] else [])
    else if task_type = "text_to_image".data then
      if message.isEmpty || (pyStrip message).length < 3 then
        ["請提供有效的圖片描述（至少3個字符）".data] else []
    else if task_type = "image_to_image".data then
      (if file_count = 0 then ["圖生圖需要上傳至少1張圖片".data] else [])
        ++ (if message.isEmpty then ["請說明要如何處理圖片".data] else [])
    else if task_type = "image_to_video".data then
      if file_count = 0 then ["圖生視頻需要上傳1張圖片".data] else []
    else if task_type = "first_to_last_frame".data then
      if file_count < 2 then ["首尾幀插值需要上傳2張圖片".data] else []
    else if task_type = "text_to_video".data then
      if message.isEmpty || (pyStrip message).length < 5 then
        ["請提供有效的視頻描述（至少5個字符）".data] else []
    else []
  { valid := decide (errors.length = 0), errors := errors }

/-! ### Helper lemmas -/

/-- Length of the batch-step loop output. -/
theorem planSteps_length (fp : List (List Char)) (total : Nat)
    (scenes : List (List Char)) :
    ∀ i : Nat, (planSteps fp total i scenes).length = scenes.length := by
  induction scenes with
  | nil => intro i; rfl
  | cons s rest ih =>
    intro i
    simp [planSteps, ih (i + 1)]

/-- Element `k` of the batch-step loop output started at index `i`. -/
theorem planSteps_getD (fp : List (List Char)) (total : Nat)
    (scenes : List (List Char)) :
    ∀ (i k : Nat) (d : BatchStep), k < scenes.length →
      (planSteps fp total i scenes).getD k d
        = mkBatchStep fp total (i + k) (scenes.getD k []) := by
  induction scenes with
  | nil => intro i k d h; exact absurd h (by simp)
  | cons s rest ih =>
    intro i k d h
    cases k with
    | zero => rfl
    | succ k =>
      have h2 : k < rest.length := by simpa using h
      have hrec := ih (i + 1) k d h2
      have harith : i + 1 + k = i + (k + 1) := by omega
      simpa [planSteps, List.getD_cons_succ, harith] using hrec

/-- Validity flag of `validate_input` is exactly emptiness of the error
list. -/
theorem validate_valid_iff (t m : List Char) (f : Nat) :
    (validate_input t m f).valid = true ↔ (validate_input t m f).errors = [] := by
  show decide ((validate_input t m f).errors.length = 0) = true
    ↔ (validate_input t m f).errors = []
  rw [decide_eq_true_iff]
  exact List.length_eq_zero

end DecisionAgent

namespace DecisionAgent

/-! ### Claim theorems -/

/-- C1: the spec claims `split_scenes("場景一：貓在跳舞\n場景二：狗在跑步")`
returns `["貓在跳舞", "狗在跑步"]`.  The code does not: pattern 1 has a
single capturing group, so `re.findall` yields the captured strings
themselves, and the loop body `match[1] if len(match) > 1 else match[0]`
indexes character 1 of each capture, producing `["在", "在"]`.  This theorem
evaluates the embedded code at the failing input and records that the
claimed value is not produced. -/
theorem c1_parse_scenes_failing_input :
    parse_scenes "場景一：貓在跳舞\n場景二：狗在跑步".data
        = some [['在'], ['在']] ∧
      parse_scenes "場景一：貓在跳舞\n場景二：狗在跑步".data
        ≠ some ["貓在跳舞".data, "狗在跑步".data] := by
  decide

/-- C2: for every `BatchImageGeneration` classification whose prompt the
scene splitter parses into `N` scenes with `1 ≤ N ≤ 4`, the planner emits
exactly `N` steps in order, step values `1..N`, every action
`image_to_image`, `total_batches = N` on every step, and the same full
attachment list on every step. -/
theorem c2_batch_plan_shape (prompt : List Char)
    (filePaths : List (List Char)) (scenes : List (List Char))
    (hp : parse_scenes prompt = some scenes) (h1 : 1 ≤ scenes.length)
    (h4 : scenes.length ≤ 4) :
    ∃ plan, plan_batch_generation prompt filePaths = some plan ∧
      plan.length = scenes.length ∧
      ∀ k, k < plan.length →
        (plan.getD k (mkBatchStep [] 0 0 [])).step = k + 1 ∧
        (plan.getD k (mkBatchStep [] 0 0 [])).action = "image_to_image".data ∧
        (plan.getD k (mkBatchStep [] 0 0 [])).total_batches = scenes.length ∧
        (plan.getD k (mkBatchStep [] 0 0 [])).filePaths = filePaths := by
  refine ⟨planSteps filePaths scenes.length 1 scenes, ?_, ?_, ?_⟩
  · simp [plan_batch_generation, hp]
  · exact planSteps_length filePaths scenes.length scenes 1
  · intro k hk
    have hk2 : k < scenes.length := by
      rwa [planSteps_length filePaths scenes.length scenes 1] at hk
    rw [planSteps_getD filePaths scenes.length scenes 1 k
      (mkBatchStep [] 0 0 []) hk2]
    exact ⟨Nat.add_comm 1 k, rfl, rfl, rfl⟩

/-- C2 witness: the theorem applied to the two-scene prompt
`場景一：貓在跳舞\n場景二：狗在跑步` with one attachment. -/
theorem c2_batch_plan_shape_witness :
    (parse_scenes "場景一：貓在跳舞\n場景二：狗在跑步".data
        = some [['在'], ['在']] ∧
      1 ≤ ([['在'], ['在']] : List (List Char)).length ∧
      ([['在'], ['在']] : List (List Char)).length ≤ 4) ∧
    (∃ plan,
      plan_batch_generation "場景一：貓在跳舞\n場景二：狗在跑步".data
          ["img.png".data] = some plan ∧
        plan.length = 2 ∧
        ∀ k, k < plan.length →
          (plan.getD k (mkBatchStep [] 0 0 [])).step = k + 1 ∧
          (plan.getD k (mkBatchStep [] 0 0 [])).action
            = "image_to_image".data ∧
          (plan.getD k (mkBatchStep [] 0 0 [])).total_batches = 2 ∧
          (plan.getD k (mkBatchStep [] 0 0 [])).filePaths
            = ["img.png".data]) :=
  ⟨⟨by decide, by decide, by decide⟩,
    c2_batch_plan_shape "場景一：貓在跳舞\n場景二：狗在跑步".data
      ["img.png".data] [['在'], ['在']] (by decide) (by decide) (by decide)⟩

/-- C3: with zero attachments the classifier returns `text_to_video` when a
video keyword is contained in the message and `text_to_image` otherwise; in
particular it never returns `image_to_image`, `image_to_video`,
`first_to_last_frame` or `batch_image_generation`. -/
theorem c3_zero_attachments (message : List Char) :
    determine_task_type message 0
        = (if video_gen_keywords.any (fun kw => pyIn kw message) = true then
            TaskType.text_to_video
          else TaskType.text_to_image) ∧
      determine_task_type message 0 ≠ TaskType.image_to_image ∧
      determine_task_type message 0 ≠ TaskType.image_to_video ∧
      determine_task_type message 0 ≠ TaskType.first_to_last_frame ∧
      determine_task_type message 0 ≠ TaskType.batch_image_generation := by
  have h : determine_task_type message 0
      = (if video_gen_keywords.any (fun kw => pyIn kw message) = true then
          TaskType.text_to_video
        else TaskType.text_to_image) := by
    simp [determine_task_type]
  refine ⟨h, ?_, ?_, ?_, ?_⟩ <;> rw [h] <;>
    by_cases hv : video_gen_keywords.any (fun kw => pyIn kw message) = true <;>
      simp [hv]

/-- C4: the spec claims the parameter mapping contains the key `duration`
only if a duration pattern was detected.  The code unconditionally sets the
key (default 5 in the no-match branch): for the empty message no duration
pattern is detected yet the key is present. -/
theorem c4_duration_key_counterexample :
    searchDuration [] = none ∧
      (extract_parameters []).duration = some 5 ∧
      (extract_parameters []).duration ≠ none := by
  decide

/-- C4 amended: the mapping always contains `duration` (the clamped match
value, or the default 5 when no duration pattern is detected), while `size`
and `style` are present exactly when their patterns are detected. -/
theorem c4_parameter_keys (message : List Char) :
    (extract_parameters message).duration ≠ none ∧
      (searchDuration message = none →
        (extract_parameters message).duration = some 5) ∧
      (∀ d, searchDuration message = some d →
        (extract_parameters message).duration = some (min (max d 1) 10)) ∧
      ((extract_parameters message).size ≠ none ↔ findSize message ≠ none) ∧
      ((extract_parameters message).style ≠ none ↔ findStyle message ≠ none) := by
  refine ⟨?_, ?_, ?_, ?_, Iff.rfl⟩
  · cases h : searchDuration message <;> simp [extract_parameters, h]
  · intro h; simp [extract_parameters, h]
  · intro d h; simp [extract_parameters, h]
  · cases h : findSize message <;> simp [extract_parameters, findSize] at h ⊢ <;>
      simp [h]

/-- C4 amended witness: the theorem applied to the empty message (no
duration detected, default 5) and to `7秒` (detected, clamped value). -/
theorem c4_parameter_keys_witness :
    (extract_parameters []).duration = some 5 ∧
      (extract_parameters "7秒".data).duration = some (min (max 7 1) 10) :=
  ⟨(c4_parameter_keys []).2.1 (by decide),
    (c4_parameter_keys "7秒".data).2.2.1 7 (by decide)⟩

/-- C5: the spec claims that removing one instruction word can never create
a new occurrence of another instruction word that then gets matched and
removed.  It can: `hel畫p` contains no occurrence of `help`, yet after the
pass the result is empty — removing `畫` (position 6 in the list) created
`help` (position 8), which the later iteration removed.  Under the claim
the result would have been `help`. -/
theorem c5_cascade_counterexample :
    pyIn "help".data "hel畫p".data = false ∧
      extract_prompt "hel畫p".data = [] := by
  decide

/-- C5 amended: removal is a single pass in list order; removing a word can
create an occurrence of a word that occurs later in the list, which is then
matched and removed (`hel畫p` ends empty), while occurrences created for the
word being processed or for earlier words are not revisited (`ddrawraw`
collapses to `draw`, which survives the pass). -/
theorem c5_single_pass_cascade :
    extract_prompt "hel畫p".data = [] ∧
      extract_prompt "ddrawraw".data = "draw".data := by
  decide

/-- C6: the size extractor tries the patterns `WxH`, `W:H`, `W by H` in
order, the first pattern with a match anywhere in the message wins, and the
match is formatted as `{width}x{height}`; concretely `1920x1080 image`
yields `1920x1080` and `16:9 video` yields the literal `16x9`. -/
theorem c6_size_pattern_priority :
    (extract_parameters "1920x1080 image".data).size
        = some "1920x1080".data ∧
      (extract_parameters "16:9 video".data).size = some "16x9".data ∧
      (∀ msg w h, searchSize matchSizeXAt msg = some (w, h) →
        (extract_parameters msg).size = some (formatSize w h)) ∧
      (∀ msg w h, searchSize matchSizeXAt msg = none →
        searchSize matchSizeColonAt msg = some (w, h) →
        (extract_parameters msg).size = some (formatSize w h)) ∧
      (∀ msg w h, searchSize matchSizeXAt msg = none →
        searchSize matchSizeColonAt msg = none →
        searchSize matchSizeByAt msg = some (w, h) →
        (extract_parameters msg).size = some (formatSize w h)) := by
  refine ⟨by decide, by decide, ?_, ?_, ?_⟩
  · intro msg w h hx
    simp [extract_parameters, findSize, firstSizeMatchIn, sizeMatchers, hx]
  · intro msg w h hx hc
    simp [extract_parameters, findSize, firstSizeMatchIn, sizeMatchers, hx, hc]
  · intro msg w h hx hc hb
    simp [extract_parameters, findSize, firstSizeMatchIn, sizeMatchers, hx,
      hc, hb]

/-- C6 witness: the three priority implications applied to concrete
messages where exactly the stated searches succeed. -/
theorem c6_size_pattern_priority_witness :
    (searchSize matchSizeXAt "5:6 7x8".data = some (7, 8) ∧
      (extract_parameters "5:6 7x8".data).size = some (formatSize 7 8)) ∧
    (searchSize matchSizeXAt "1 by 2, 3:4".data = none ∧
      searchSize matchSizeColonAt "1 by 2, 3:4".data = some (3, 4) ∧
      (extract_parameters "1 by 2, 3:4".data).size = some (formatSize 3 4)) ∧
    (searchSize matchSizeXAt "3 by 4".data = none ∧
      searchSize matchSizeColonAt "3 by 4".data = none ∧
      searchSize matchSizeByAt "3 by 4".data = some (3, 4) ∧
      (extract_parameters "3 by 4".data).size = some (formatSize 3 4)) :=
  ⟨⟨by decide,
      c6_size_pattern_priority.2.2.1 "5:6 7x8".data 7 8 (by decide)⟩,
    ⟨by decide, by decide,
      c6_size_pattern_priority.2.2.2.1 "1 by 2, 3:4".data 3 4 (by decide)
        (by decide)⟩,
    by decide, by decide, by decide,
    c6_size_pattern_priority.2.2.2.2 "3 by 4".data 3 4 (by decide)
      (by decide) (by decide)⟩

/-- C7: the validator evaluates every applicable rule, appends one error
string per failing rule, and `valid` holds iff the error list is empty;
validating `batch_image_generation` with an empty message and zero
attachments yields `valid = false` with exactly 3 pairwise-distinct error
strings. -/
theorem c7_validator_errors :
    (∀ t m f, (validate_input t m f).valid = true
        ↔ (validate_input t m f).errors = []) ∧
      (validate_input "batch_image_generation".data [] 0).valid = false ∧
      (validate_input "batch_image_generation".data [] 0).errors.length = 3 ∧
      (validate_input "batch_image_generation".data [] 0).errors.Nodup :=
  ⟨fun t m f => validate_valid_iff t m f, by decide, by decide, by decide⟩

/-- C8: when the scene splitter yields zero scenes for a batch prompt, the
planner returns the empty plan (and, since the splitter returned rather
than raised, no exception propagates). -/
theorem c8_empty_scene_plan (prompt : List Char)
    (filePaths : List (List Char)) (h : parse_scenes prompt = some []) :
    plan_batch_generation prompt filePaths = some [] := by
  simp [plan_batch_generation, h, planSteps]

/-- C8 witness: the empty prompt parses to zero scenes and plans to the
empty step list. -/
theorem c8_empty_scene_plan_witness :
    parse_scenes [] = some [] ∧
      plan_batch_generation [] ["img.png".data] = some [] :=
  ⟨by decide, c8_empty_scene_plan [] ["img.png".data] (by decide)⟩

/-- C9: the confidence score is in the closed interval [0, 1] for every
message, attachment count and task type. -/
theorem c9_confidence_bounds (message : List Char) (file_count : Nat)
    (task_type : TaskType) :
    0 ≤ calculate_confidence message file_count task_type ∧
      calculate_confidence message file_count task_type ≤ 1 := by
  unfold calculate_confidence
  constructor
  · refine le_min ?_ zero_le_one
    split_ifs <;> norm_num
  · exact min_le_right _ _

/-- C10: for any task-type string outside the six with validation rules the
validator returns `valid = true` with an empty error list, regardless of
message and attachment count. -/
theorem c10_unknown_task_valid (t m : List Char) (f : Nat)
    (h : t ∉ ["batch_image_generation".data, "text_to_image".data,
      "image_to_image".data, "image_to_video".data,
      "first_to_last_frame".data, "text_to_video".data]) :
    validate_input t m f = ⟨true, []⟩ := by
  simp only [List.mem_cons, List.not_mem_nil, or_false, not_or] at h
  obtain ⟨h1, h2, h3, h4, h5, h6⟩ := h
  simp [validate_input, h1, h2, h3, h4, h5, h6]

/-- C10 witness: the `multimodal` task type passes validation vacuously. -/
theorem c10_unknown_task_valid_witness :
    "multimodal".data ∉ (["batch_image_generation".data,
        "text_to_image".data, "image_to_image".data, "image_to_video".data,
        "first_to_last_frame".data, "text_to_video".data] :
        List (List Char)) ∧
      validate_input "multimodal".data "hello".data 0 = ⟨true, []⟩ :=
  ⟨by decide, c10_unknown_task_valid "multimodal".data "hello".data 0
    (by decide)⟩

end DecisionAgent
